import Mathlib

/-!
Verification development for the dashboard front-end in `src/app.py` of
MCP-Autonomous-Alpha-Agents. The file embeds the refresh logic
(`Trader.get_logs`, `TraderView.refresh`), the per-account display and
summary computations, and the concurrent run dispatcher
(`run_all_trades`), and proves or refutes the stated properties.
-/

/-- Modelled from the spec: `util.Color` (the module `util` is an external
collaborator, not part of the visible source). Only the six members used by
`mapper` are modelled; their `.value` strings are unknown, so distinct
placeholder strings stand in for them. No property below depends on the
concrete codes, only on the mapping being applied. -/
inductive Color where
  | WHITE
  | CYAN
  | GREEN
  | YELLOW
  | MAGENTA
  | RED
  deriving DecidableEq

/-- Modelled from the spec: placeholder color codes for `util.Color.*.value`. -/
def Color.value : Color → String
  | .WHITE => "white"
  | .CYAN => "cyan"
  | .GREEN => "green"
  | .YELLOW => "yellow"
  | .MAGENTA => "magenta"
  | .RED => "red"

/-- The module-level `mapper` dict of src/app.py lines 9–16. -/
def mapper : List (String × Color) :=
  [("trace", Color.WHITE), ("agent", Color.CYAN), ("function", Color.GREEN),
   ("generation", Color.YELLOW), ("response", Color.MAGENTA), ("account", Color.RED)]

/-- Python `mapper.get(type, Color.WHITE)`. -/
def mapper_get (t : String) : Color :=
  (List.lookup t mapper).getD Color.WHITE

/-- One log entry as returned by the external `read_log` collaborator:
`timestamp, type, message` (src/app.py line 80 unpacks a triple). -/
structure LogEntry where
  timestamp : String
  type : String
  message : String
  deriving DecidableEq

/-- The HTML rendering built by the loop in `Trader.get_logs`
(src/app.py lines 78–83): one `<span>` per entry, colored via `mapper`,
wrapped in a fixed scrolling `<div>`. -/
def renderLogs (logs : List LogEntry) : String :=
  let response := logs.foldl
    (fun response log =>
      let color := (mapper_get log.type).value
      response ++ "<span style='color:" ++ color ++ "'>" ++ log.timestamp ++
        " : [" ++ log.type ++ "] " ++ log.message ++ "</span><br/>")
    ""
  "<div style='height:250px; overflow-y:auto;'>" ++ response ++ "</div>"

/-- What a toolkit callback may hand back for one output component: a raw
value (which re-renders the component) or `gr.update()` with no arguments
(here `Out.update`), which leaves it unchanged. -/
inductive Out (α : Type) where
  | value (a : α)
  | update
  deriving DecidableEq

/-- Embeds `Trader.get_logs` (src/app.py lines 76–86) after a successful
fetch: `logs` is what `read_log(self.name, last_n=13)` returned, `previous`
the component's current value (`None` on the first call, hence `Option`).
The fresh rendering is returned when it differs from `previous`, else
`gr.update()`. -/
def Trader.get_logs (logs : List LogEntry) (previous : Option String) : Out String :=
  let response := renderLogs logs
  if some response ≠ previous then Out.value response else Out.update

/-- Embeds one poll-boundary call of `Trader.get_logs` with the fallible
`read_log` collaborator made explicit: `fetch` is `read_log`'s outcome.
The source has no `try/except` around the fetch (src/app.py line 77), so in
the embedding an error is propagated by bind, never converted to a result. -/
def Trader.get_logs_poll (fetch : Except String (List LogEntry))
    (previous : Option String) : Except String (Out String) :=
  match fetch with
  | Except.error e => Except.error e
  | Except.ok logs => Except.ok (Trader.get_logs logs previous)

/-- One cell of a pandas DataFrame as used here: a string or a number
(quantities and prices are exact rationals in the embedding). -/
inductive Cell where
  | str (s : String)
  | num (q : ℚ)
  deriving DecidableEq

/-- A pandas DataFrame reduced to what the displayed tables carry: named
columns and a list of rows. -/
structure DataFrame where
  columns : List String
  rows : List (List Cell)
  deriving DecidableEq

/-- Embeds `Trader.get_holdings_df` (src/app.py lines 48–58). `holdings`
is the symbol-to-quantity mapping returned by the external
`account.get_holdings()`, as an association list; Python's `if not holdings`
is the emptiness test. -/
def Trader.get_holdings_df (holdings : List (String × ℚ)) : DataFrame :=
  if holdings = [] then { columns := ["Symbol", "Quantity"], rows := [] }
  else
    { columns := ["Symbol", "Quantity"]
      rows := holdings.map (fun h => [Cell.str h.1, Cell.num h.2]) }

/-- Embeds `Trader.get_transactions_df` (src/app.py lines 60–66).
`transactions` is `account.list_transactions()`: a list of records, each a
list of key/value pairs (the collaborator's dict). On empty input the fixed
five columns are produced; otherwise `pd.DataFrame(transactions)` takes the
columns from the records' keys and the rows from their values. -/
def Trader.get_transactions_df (transactions : List (List (String × Cell))) : DataFrame :=
  if transactions = [] then
    { columns := ["Timestamp", "Symbol", "Quantity", "Price", "Rationale"], rows := [] }
  else
    { columns := (transactions.headD []).map Prod.fst
      rows := transactions.map (fun t => t.map Prod.snd) }

/-- Python `x or d` for a possibly-`None` float `x`: `None` and `0.0` are
falsy, so both give `d`; any other value passes through. -/
def pyOr (x : Option ℚ) (d : ℚ) : ℚ :=
  match x with
  | none => d
  | some v => if v = 0 then d else v

/-- The dynamic parts of the HTML string built by
`Trader.get_portfolio_value` (src/app.py lines 68–74): the background
color, the arrow emoji and the two interpolated amounts. The fixed markup
and the `,.0f` number formatting of the f-string are not modelled. -/
structure PortfolioDisplay where
  portfolioValue : ℚ
  pnl : ℚ
  color : String
  emoji : String
  deriving DecidableEq

/-- Embeds `Trader.get_portfolio_value` (src/app.py lines 68–74).
`calcPV` models `self.account.calculate_portfolio_value()` and `calcPnL`
models `self.account.calculate_profit_loss(portfolio_value)`, both external
and possibly returning `None`; `or 0.0` is `pyOr`. Color and emoji follow
`pnl >= 0` exactly as in the source. -/
def Trader.get_portfolio_value (calcPV : Option ℚ) (calcPnL : ℚ → Option ℚ) :
    PortfolioDisplay :=
  let portfolio_value := pyOr calcPV 0
  let pnl := pyOr (calcPnL portfolio_value) 0
  { portfolioValue := portfolio_value
    pnl := pnl
    color := if pnl ≥ 0 then "green" else "red"
    emoji := if pnl ≥ 0 then "⬆" else "⬇" }

/-- The data of the plotly figure built by
`Trader.get_portfolio_value_chart` (src/app.py lines 39–46): the
(datetime, value) series of `get_portfolio_value_df`. The fixed layout and
axis styling are constants and are not modelled. -/
structure Chart where
  data : List (String × ℚ)
  deriving DecidableEq

/-- Embeds `Trader.get_portfolio_value_chart` (src/app.py lines 39–46):
a line figure over the account's portfolio-value time series. -/
def Trader.get_portfolio_value_chart (series : List (String × ℚ)) : Chart :=
  { data := series }

/-- The freshly reloaded account state a `Trader` reads from its external
`Account` collaborator: the inputs of the four slow-refresh slots. -/
structure AccountState where
  calcPV : Option ℚ
  calcPnL : ℚ → Option ℚ
  holdings : List (String × ℚ)
  transactions : List (List (String × Cell))
  series : List (String × ℚ)

/-- Embeds `TraderView.refresh` (src/app.py lines 136–138): after
`self.trader.reload()` (modelled by `account` being the freshly fetched
state) it returns the four freshly computed slot values — portfolio value,
chart, holdings table, transactions table — unconditionally. It takes no
previous values and performs no comparison. -/
def TraderView.refresh (account : AccountState) :
    PortfolioDisplay × Chart × DataFrame × DataFrame :=
  (Trader.get_portfolio_value account.calcPV account.calcPnL,
   Trader.get_portfolio_value_chart account.series,
   Trader.get_holdings_df account.holdings,
   Trader.get_transactions_df account.transactions)

/-- One tick of the 120-second timer (src/app.py lines 131–132) at the
toolkit boundary: the callback is `TraderView.refresh`, whose outputs are
the value, chart, holdings and transactions components. A callback that
returns a raw value re-renders its output component; only `gr.update()`
(`Out.update`) skips the render. `refresh` returns raw values only, so
every slot is emitted as `Out.value`, whatever the components previously
showed (`_previous`, which the wiring does not even pass to `refresh`). -/
def TraderView.slowTick (account : AccountState)
    (_previous : PortfolioDisplay × Chart × DataFrame × DataFrame) :
    Out PortfolioDisplay × Out Chart × Out DataFrame × Out DataFrame :=
  (Out.value (TraderView.refresh account).1,
   Out.value (TraderView.refresh account).2.1,
   Out.value (TraderView.refresh account).2.2.1,
   Out.value (TraderView.refresh account).2.2.2)

/-- One display slot of a trader card. -/
inductive Slot where
  | title
  | value
  | chart
  | log
  | holdings
  | transactions
  deriving DecidableEq

/-- One toolkit timer: its interval in seconds and the slots its tick
refreshes. -/
structure TimerSpec where
  interval : ℚ
  outputs : List Slot
  deriving DecidableEq

/-- The refresh wiring a card's UI construction produces: the slots
computed once at construction and never refreshed, and the timers. -/
structure UIWiring where
  staticSlots : List Slot
  timers : List TimerSpec
  deriving DecidableEq

/-- Embeds `TraderView.make_ui` (src/app.py lines 98–134) as the wiring it
constructs. The title is `gr.HTML(self.trader.get_title())`: the string is
computed once at construction and wired to no timer. `gr.Timer(value=120)`
ticks `refresh` into the value, chart, holdings and transactions
components; `gr.Timer(value=0.5)` ticks `get_logs` into the log component. -/
def TraderView.make_ui : UIWiring :=
  { staticSlots := [Slot.title]
    timers :=
      [{ interval := 120
         outputs := [Slot.value, Slot.chart, Slot.holdings, Slot.transactions] },
       { interval := 0.5, outputs := [Slot.log] }] }

/-- Models `asyncio.gather(*coros)` with the default
`return_exceptions=False`, as called on src/app.py line 161: if every
operation succeeds, the whole gather succeeds; if any fails, a single
exception — one failing operation's error, determinised here as the
leftmost — propagates out of the `await`. No list of per-task results is
produced. -/
def gather : List (Except String Unit) → Except String Unit
  | [] => Except.ok ()
  | Except.ok () :: rest => gather rest
  | Except.error e :: _ => Except.error e

/-- Embeds `run_all_trades` (src/app.py lines 140–168). The collaborators
are explicit: `is_market_open` is the market-hours oracle (fallible, like
any Python call), `add_trace_processor` the tracing setup, `create_traders`
yields the agents, and `run agent` is the outcome of that agent's
`trader.run()`. The whole body sits in one `try/except Exception` that
turns any raised error `e` into the string
`"❌ Error running trades: " ++ e`; the function itself always returns a
string. The second component of the result records which per-agent run
operations were launched (handed to `asyncio.gather`): none on the
market-closed short-circuit or when construction fails earlier. -/
def run_all_trades (is_market_open : Except String Bool)
    (add_trace_processor : Except String Unit)
    (create_traders : Except String (List String))
    (run : String → Except String Unit) : String × List String :=
  match is_market_open with
  | Except.error e => ("❌ Error running trades: " ++ e, [])
  | Except.ok false => ("⚠️ Market is currently closed", [])
  | Except.ok true =>
    match add_trace_processor with
    | Except.error e => ("❌ Error running trades: " ++ e, [])
    | Except.ok () =>
      match create_traders with
      | Except.error e => ("❌ Error running trades: " ++ e, [])
      | Except.ok traders =>
        match gather (traders.map run) with
        | Except.error e => ("❌ Error running trades: " ++ e, traders)
        | Except.ok () => ("✅ Trading round completed for all agents", traders)

/-- One agent's row of the summary table built by
`generate_trading_summary` (src/app.py lines 186–204): the substituted
portfolio value and P&L, the holdings string and the trade count. The CSV
serialisation, `,.2f` formatting and filename timestamping are not
modelled. -/
structure SummaryRow where
  portfolioValue : ℚ
  pnl : ℚ
  holdingsStr : String
  recentTrades : Nat
  deriving DecidableEq

/-- Embeds the per-account summary computation of
`generate_trading_summary` (src/app.py lines 190–204): the same
`calculate_portfolio_value() or 0.0` and
`calculate_profit_loss(portfolio_value) or 0.0` substitutions as the
display, the joined holdings string (or `"None"`), and
`len(transactions) if transactions else 0`. -/
def generate_summary_row (calcPV : Option ℚ) (calcPnL : ℚ → Option ℚ)
    (holdings : List (String × ℚ)) (transactions : List (List (String × Cell))) :
    SummaryRow :=
  let portfolio_value := pyOr calcPV 0
  let pnl := pyOr (calcPnL portfolio_value) 0
  { portfolioValue := portfolio_value
    pnl := pnl
    holdingsStr :=
      if holdings = [] then "None"
      else String.intercalate ", " (holdings.map (fun h => h.1 ++ ": " ++ toString h.2))
    recentTrades := if transactions = [] then 0 else transactions.length }

/-- Scenario: the run collaborator under which only agent `"A"` fails. -/
def runOneFails : String → Except String Unit :=
  fun a => if a = "A" then Except.error "boom" else Except.ok ()

/-- Scenario: the run collaborator under which both `"A"` and `"B"` fail,
with distinct errors. -/
def runBothFail : String → Except String Unit :=
  fun a => if a = "A" then Except.error "boom" else Except.error "crash"

/-- Scenario: the run collaborator under which every agent fails, `"A"`
with the same error as in `runOneFails`. -/
def runAllFail : String → Except String Unit :=
  fun a => if a = "A" then Except.error "boom" else Except.error ("crash-" ++ a)

/-- The agents of `traders` whose run operation fails under `run`. -/
def failingAgents (run : String → Except String Unit) (traders : List String) :
    List String :=
  traders.filter (fun a =>
    match run a with
    | Except.error _ => true
    | Except.ok _ => false)

/-- A concrete account state for counterexamples. -/
def sampleAccount : AccountState :=
  { calcPV := some 100
    calcPnL := fun _ => some 5
    holdings := [("AAPL", 3)]
    transactions := []
    series := [] }

/-- Every element of `l` succeeding makes `gather l` succeed. -/
theorem gather_ok_of_all_ok (l : List (Except String Unit))
    (h : ∀ x ∈ l, x = Except.ok ()) : gather l = Except.ok () := by
  induction l with
  | nil => rfl
  | cons x rest ih =>
    have hx := h x (List.mem_cons_self x rest)
    subst hx
    exact ih (fun y hy => h y (List.mem_cons_of_mem _ hy))

/-- C4: if the market-hours oracle returns false, the dispatcher returns
the market-closed outcome and launches zero per-agent run operations,
whatever the other collaborators and however many agents `create_traders`
would have produced. -/
theorem run_all_trades_market_closed (add_trace_processor : Except String Unit)
    (create_traders : Except String (List String))
    (run : String → Except String Unit) :
    run_all_trades (Except.ok false) add_trace_processor create_traders run
      = ("⚠️ Market is currently closed", []) := rfl

/-- C6: any exception raised before or during the fan-out — the market
oracle, the tracing setup, `create_traders`, or the gathered runs
themselves — is reported as the `"❌ Error running trades: …"` fatal
string; the dispatcher always returns a string (its codomain is not
fallible), so no exception reaches its caller. -/
theorem run_all_trades_construction_failure_fatal (e : String) :
    (∀ (a : Except String Unit) (c : Except String (List String))
        (r : String → Except String Unit),
        run_all_trades (Except.error e) a c r
          = ("❌ Error running trades: " ++ e, [])) ∧
    (∀ (c : Except String (List String)) (r : String → Except String Unit),
        run_all_trades (Except.ok true) (Except.error e) c r
          = ("❌ Error running trades: " ++ e, [])) ∧
    (∀ r : String → Except String Unit,
        run_all_trades (Except.ok true) (Except.ok ()) (Except.error e) r
          = ("❌ Error running trades: " ++ e, [])) ∧
    (∀ (t : String) (ts : List String),
        run_all_trades (Except.ok true) (Except.ok ()) (Except.ok (t :: ts))
            (fun _ => Except.error e)
          = ("❌ Error running trades: " ++ e, t :: ts)) :=
  ⟨fun _ _ _ => rfl, fun _ _ => rfl, fun _ => rfl, fun _ _ => rfl⟩

/-- C5 counterexample: when the log fetch fails, the poll step yields the
propagated exception, not the "no change" signal `Except.ok Out.update`
the claim describes, so the failure does escape the refresh step. -/
theorem get_logs_poll_error_cex :
    Trader.get_logs_poll (Except.error "database unavailable") none
        = Except.error "database unavailable" ∧
    Trader.get_logs_poll (Except.error "database unavailable") none
        ≠ Except.ok Out.update := by
  refine ⟨rfl, ?_⟩
  intro h
  exact Except.noConfusion h

/-- C5 amended: a fetch failure during a log poll propagates out of
`Trader.get_logs` unchanged — the source has no handler converting it into
the no-change channel. -/
theorem get_logs_poll_error_propagates (e : String) (previous : Option String) :
    Trader.get_logs_poll (Except.error e) previous = Except.error e := rfl

/-- C9: on an account with no holdings, `get_holdings_df` returns a
zero-row frame with exactly the columns Symbol, Quantity; on an account
with no transactions, `get_transactions_df` returns a zero-row frame with
exactly the columns Timestamp, Symbol, Quantity, Price, Rationale. Both
are total functions, so neither raises on empty input. -/
theorem empty_input_dataframes :
    Trader.get_holdings_df [] = { columns := ["Symbol", "Quantity"], rows := [] } ∧
    Trader.get_transactions_df []
      = { columns := ["Timestamp", "Symbol", "Quantity", "Price", "Rationale"],
          rows := [] } :=
  ⟨rfl, rfl⟩

/-- C1 counterexample: with the market open and agents A, B, the scenario
where only A fails (k = 1) and the scenario where A and B both fail
(k = 2) produce identical dispatcher outcomes — the single string
`"❌ Error running trades: boom"`, which names no agent. One and the same
outcome cannot contain exactly k (agent, error) entries identifying the
failing agents for both k = 1 and k = 2, so no PartialFailure with exact
attribution is returned. -/
theorem run_all_trades_failure_count_cex :
    failingAgents runOneFails ["A", "B"] = ["A"] ∧
    failingAgents runBothFail ["A", "B"] = ["A", "B"] ∧
    run_all_trades (Except.ok true) (Except.ok ()) (Except.ok ["A", "B"]) runOneFails
      = run_all_trades (Except.ok true) (Except.ok ()) (Except.ok ["A", "B"]) runBothFail ∧
    run_all_trades (Except.ok true) (Except.ok ()) (Except.ok ["A", "B"]) runOneFails
      = ("❌ Error running trades: boom", ["A", "B"]) :=
  ⟨rfl, rfl, rfl, rfl⟩

/-- C1 amended: with the market open, if all per-agent runs succeed the
dispatcher returns the all-success string; if any run fails, it returns the
single `"❌ Error running trades: …"` string carrying the one error that
`asyncio.gather` propagated, with no per-agent (agent, error) list. -/
theorem run_all_trades_outcomes (traders : List String)
    (run : String → Except String Unit) :
    ((∀ a ∈ traders, run a = Except.ok ()) →
        run_all_trades (Except.ok true) (Except.ok ()) (Except.ok traders) run
          = ("✅ Trading round completed for all agents", traders)) ∧
    (∀ e : String, gather (traders.map run) = Except.error e →
        run_all_trades (Except.ok true) (Except.ok ()) (Except.ok traders) run
          = ("❌ Error running trades: " ++ e, traders)) := by
  constructor
  · intro h
    have hg : gather (traders.map run) = Except.ok () := by
      apply gather_ok_of_all_ok
      intro x hx
      rcases List.mem_map.mp hx with ⟨a, ha, rfl⟩
      exact h a ha
    simp [run_all_trades, hg]
  · intro e hg
    simp [run_all_trades, hg]

/-- C1 amended, witnessed at two agents: both runs succeeding yields the
success string; A failing with "boom" yields the single fatal string. -/
theorem run_all_trades_outcomes_witness :
    run_all_trades (Except.ok true) (Except.ok ()) (Except.ok ["A", "B"])
        (fun _ => Except.ok ())
      = ("✅ Trading round completed for all agents", ["A", "B"]) ∧
    run_all_trades (Except.ok true) (Except.ok ()) (Except.ok ["A", "B"]) runOneFails
      = ("❌ Error running trades: " ++ "boom", ["A", "B"]) :=
  ⟨(run_all_trades_outcomes ["A", "B"] (fun _ => Except.ok ())).1 (fun _ _ => rfl),
   (run_all_trades_outcomes ["A", "B"] runOneFails).2 "boom" rfl⟩

/-- C2 counterexample: with agents A, B, C and the market open, the
scenario where only A fails (B and C succeed) produces exactly the same
dispatcher outcome as the scenario where all three fail — so the outcome
reports nothing about B and C having completed and succeeded, contrary to
the claimed PartialFailure([(A, error)]) with B and C reported as
succeeded. -/
theorem run_all_trades_sibling_cex :
    run_all_trades (Except.ok true) (Except.ok ()) (Except.ok ["A", "B", "C"]) runOneFails
      = run_all_trades (Except.ok true) (Except.ok ()) (Except.ok ["A", "B", "C"]) runAllFail ∧
    runOneFails "B" = Except.ok () ∧
    runOneFails "C" = Except.ok () ∧
    runAllFail "B" ≠ Except.ok () ∧
    runAllFail "C" ≠ Except.ok () := by
  refine ⟨rfl, rfl, rfl, fun h => Except.noConfusion h, fun h => Except.noConfusion h⟩

/-- C2 amended: for agents [A, B, C] with A's run failing and B's and C's
succeeding, the dispatcher returns the single error string built from A's
error; the outcome contains no (agent, error) list and no report of B's
and C's success. -/
theorem run_all_trades_single_failure_outcome (e : String) :
    run_all_trades (Except.ok true) (Except.ok ()) (Except.ok ["A", "B", "C"])
        (fun a => if a = "A" then Except.error e else Except.ok ())
      = ("❌ Error running trades: " ++ e, ["A", "B", "C"]) := rfl

/-- C3 counterexample: at `sampleAccount`, give the slow tick as previous
values exactly the values a fresh computation produces (V = P for every
slow slot); the tick still emits the portfolio-value slot as a full
re-render (`Out.value`), not as the claimed "no change" signal
(`Out.update`). -/
theorem slowTick_ignores_previous :
    (TraderView.slowTick sampleAccount (TraderView.refresh sampleAccount)).1
        = Out.value (TraderView.refresh sampleAccount).1 ∧
    (TraderView.slowTick sampleAccount (TraderView.refresh sampleAccount)).1
        ≠ Out.update :=
  ⟨rfl, fun h => Out.noConfusion h⟩

/-- C3 amended: the fresh-versus-previous comparison exists only for the
log slot — `get_logs` returns `gr.update()` when the fresh rendering
equals the previous value and the fresh rendering when it differs — while
the value, chart, holdings and transactions slots are re-emitted
unconditionally by `refresh` on every slow tick, whatever was previously
rendered. -/
theorem change_comparison_log_slot_only :
    (∀ logs : List LogEntry,
        Trader.get_logs logs (some (renderLogs logs)) = Out.update) ∧
    (∀ (logs : List LogEntry) (previous : Option String),
        previous ≠ some (renderLogs logs) →
        Trader.get_logs logs previous = Out.value (renderLogs logs)) ∧
    (∀ (account : AccountState)
        (previous : PortfolioDisplay × Chart × DataFrame × DataFrame),
        TraderView.slowTick account previous
          = (Out.value (TraderView.refresh account).1,
             Out.value (TraderView.refresh account).2.1,
             Out.value (TraderView.refresh account).2.2.1,
             Out.value (TraderView.refresh account).2.2.2)) := by
  refine ⟨fun logs => ?_, fun logs previous h => ?_, fun account previous => rfl⟩
  · simp [Trader.get_logs]
  · simp only [Trader.get_logs]
    rw [if_pos (fun hc => h hc.symm)]

/-- C3 amended, witnessed: with no previous rendering the log slot emits
the fresh value. -/
theorem change_comparison_log_slot_only_witness :
    Trader.get_logs [] none = Out.value (renderLogs []) :=
  change_comparison_log_slot_only.2.1 [] none (fun h => Option.noConfusion h)

/-- C8: in the constructed wiring, the title is the one slot computed at
construction and attached to no timer; the log slot is the sole output of
the 0.5-second timer; and the value, chart, holdings and transactions
slots are exactly the outputs of the 120-second timer, so each slot
refreshes on its own cadence. -/
theorem make_ui_slot_cadences :
    TraderView.make_ui.staticSlots = [Slot.title] ∧
    TraderView.make_ui.timers.map TimerSpec.interval = [120, 0.5] ∧
    (TraderView.make_ui.timers.filter
        (fun t => decide (Slot.title ∈ t.outputs))) = [] ∧
    (TraderView.make_ui.timers.filter
        (fun t => decide (Slot.log ∈ t.outputs))).map TimerSpec.interval = [0.5] ∧
    (TraderView.make_ui.timers.filter
        (fun t => decide (Slot.log ∈ t.outputs))).map TimerSpec.outputs = [[Slot.log]] ∧
    (TraderView.make_ui.timers.filter
        (fun t => decide (Slot.value ∈ t.outputs))).map TimerSpec.interval = [120] ∧
    (TraderView.make_ui.timers.filter
        (fun t => decide (Slot.chart ∈ t.outputs))).map TimerSpec.interval = [120] ∧
    (TraderView.make_ui.timers.filter
        (fun t => decide (Slot.holdings ∈ t.outputs))).map TimerSpec.interval = [120] ∧
    (TraderView.make_ui.timers.filter
        (fun t => decide (Slot.transactions ∈ t.outputs))).map TimerSpec.interval
      = [120] := by
  refine ⟨rfl, rfl, ?_, ?_, ?_, ?_, ?_, ?_, ?_⟩ <;> rfl

/-- C10: the display and the summary substitute 0 for a `None` (or 0.0,
the other falsy float) result of the portfolio-value and profit-loss
collaborators, agree on the substituted amounts, and style the display
green with an up arrow exactly when the substituted P&L is at least zero
and red with a down arrow exactly when it is negative; being total on all
inputs, the display always produces its dollar rendering. -/
theorem portfolio_display_substitution_and_styling (calcPV : Option ℚ)
    (calcPnL : ℚ → Option ℚ) (holdings : List (String × ℚ))
    (transactions : List (List (String × Cell))) :
    (Trader.get_portfolio_value none calcPnL).portfolioValue = 0 ∧
    (Trader.get_portfolio_value (some 0) calcPnL).portfolioValue = 0 ∧
    (Trader.get_portfolio_value calcPV (fun _ => none)).pnl = 0 ∧
    (Trader.get_portfolio_value calcPV (fun _ => some 0)).pnl = 0 ∧
    (generate_summary_row calcPV calcPnL holdings transactions).portfolioValue
      = (Trader.get_portfolio_value calcPV calcPnL).portfolioValue ∧
    (generate_summary_row calcPV calcPnL holdings transactions).pnl
      = (Trader.get_portfolio_value calcPV calcPnL).pnl ∧
    ((Trader.get_portfolio_value calcPV calcPnL).color = "green"
      ↔ 0 ≤ (Trader.get_portfolio_value calcPV calcPnL).pnl) ∧
    ((Trader.get_portfolio_value calcPV calcPnL).emoji = "⬆"
      ↔ 0 ≤ (Trader.get_portfolio_value calcPV calcPnL).pnl) ∧
    ((Trader.get_portfolio_value calcPV calcPnL).color = "red"
      ↔ (Trader.get_portfolio_value calcPV calcPnL).pnl < 0) ∧
    ((Trader.get_portfolio_value calcPV calcPnL).emoji = "⬇"
      ↔ (Trader.get_portfolio_value calcPV calcPnL).pnl < 0) := by
  refine ⟨rfl, by simp [Trader.get_portfolio_value, pyOr], rfl,
    by simp [Trader.get_portfolio_value, pyOr], rfl, rfl, ?_, ?_, ?_, ?_⟩ <;>
  · simp only [Trader.get_portfolio_value]
    rcases le_or_lt 0 (pyOr (calcPnL (pyOr calcPV 0)) 0) with h | h
    · simp [h, h.not_lt, ge_iff_le]
    · simp [h, h.not_le, ge_iff_le]
